import Mathlib

/-!
Verification of the document-export pipeline of the invoice-pro dashboard
(`src/src/lib/pdf-utils.ts`).

The TypeScript source is shallowly embedded below.  JavaScript numbers are
modelled as rationals (`ℚ`), machine strings as `String`, thrown values by
the inductive `Thrown`, and the DOM / html2canvas / jsPDF effects of each
entry point by an explicit environment record (`BrowserEnv`) whose fields
return `Except Thrown _` the way the corresponding `await`ed calls can
reject.  Pure helpers (`convertOklchToRgb`, the page-slicing loop of
`createPDFFromCanvas`, the download ledger, the option spread-merge) are
translated function by function.
-/

namespace PdfUtils

/-! ## JavaScript primitives -/

/-- JavaScript `Math.round`: round half toward positive infinity,
so `Math.round (-127.5) = -127`. -/
def jsRound (q : ℚ) : ℤ := ⌊q + 1 / 2⌋

/-- Result of JavaScript `parseFloat` on one whitespace-separated token:
either a finite numeric value or `NaN` (token failed to parse, or the token
was `undefined` because the array was too short). -/
inductive JSNumber where
  | num (value : ℚ)
  | nan
deriving DecidableEq, Repr

/-- A JavaScript runtime value, as far as the table generator needs it. -/
inductive JSValue where
  | undefined
  | null
  | boolean (b : Bool)
  | number (q : ℚ)
  | nan
  | string (s : String)
deriving DecidableEq, Repr

/-- JavaScript truthiness: `undefined`, `null`, `false`, `0`, `NaN` and the
empty string are falsy, everything else is truthy. -/
def truthy : JSValue → Bool
  | .undefined => false
  | .null => false
  | .boolean b => b
  | .number q => decide (q ≠ 0)
  | .nan => false
  | .string s => decide (s ≠ "")

/-- JavaScript `String(x)`.  The exact decimal rendering of numbers is not
needed by any claim; we use Lean's rendering of the rational as a stand-in. -/
def jsToString : JSValue → String
  | .undefined => "undefined"
  | .null => "null"
  | .boolean true => "true"
  | .boolean false => "false"
  | .number q => toString q
  | .nan => "NaN"
  | .string s => s

/-- JavaScript `a || b`. -/
def jsOr (a b : JSValue) : JSValue := if truthy a then a else b

/-- JavaScript `a || b` where `a` is a possibly-absent string
(absent, `undefined`, and the empty string all fall through to `b`). -/
def jsOrElse (a : Option String) (b : String) : String :=
  match a with
  | some s => if s = "" then b else s
  | none => b

/-- A thrown JavaScript value: an `Error` instance carrying a message, or
any other thrown value (a string, a number, ...). -/
inductive Thrown where
  | errorObj (message : String)
  | nonError
deriving DecidableEq, Repr

/-- The catch-clause idiom `error instanceof Error ? error.message : d`. -/
def Thrown.messageOr (d : String) : Thrown → String
  | .errorObj m => m
  | .nonError => d

/-! ## Color Normalizer (`PDFGenerator.convertOklchToRgb`, lines 749–766) -/

/-- An `rgb(r, g, b)` color value as emitted by the normalizer's template
string; the channels are the integers interpolated into the template (the
source performs no clamping, so they may lie outside `[0, 255]`). -/
structure RGB where
  r : ℤ
  g : ℤ
  b : ℤ
deriving DecidableEq, Repr

/-- Embedding of `PDFGenerator.convertOklchToRgb(params)`.  The source
splits `params` on whitespace and applies `parseFloat` to the first token;
`parts` is that token list with `parseFloat` already applied (`JSNumber.nan`
covers a non-numeric first token and the out-of-bounds read when the list
is empty).  A finite lightness `L` yields the grayscale triple with channel
`Math.round(L * 255)`; the `isNaN` branch and the catch clause both return
`rgb(128, 128, 128)`. -/
def convertOklchToRgb (parts : List JSNumber) : RGB :=
  match parts with
  | .num lightness :: _ =>
      let gray := jsRound (lightness * 255)
      ⟨gray, gray, gray⟩
  | _ => ⟨128, 128, 128⟩

/-! ## Table cells (`BatchPDFGenerator.generateTablePDF`, line 917) -/

/-- Embedding of the cell rendering `String(row[header] || '')` performed
for every header of every data row in `generateTablePDF`.  A table row is
modelled as a total map from header names to JavaScript values
(`JSValue.undefined` standing for an absent key). -/
def tableCellValue (row : String → JSValue) (header : String) : String :=
  jsToString (jsOr (row header) (.string ""))

/-! ## Paginator (`PDFGenerator.createPDFFromCanvas`, lines 488–531) -/

/-- `imgHeight = (canvas.height * imgWidth) / canvas.width` with
`imgWidth = pageWidth` (line 500–501): the bitmap's height once its width
is stretched to the page width, aspect ratio preserved. -/
def scaledImageHeight (canvasWidth canvasHeight pageWidth : ℚ) : ℚ :=
  canvasHeight * pageWidth / canvasWidth

/-- Iteration bound for the page-appending loop.  The loop subtracts
`pageHeight` from a quantity starting below `imgHeight`, so any natural
number exceeding `imgHeight / pageHeight` bounds its iteration count;
`imgHeight.num.toNat * pageHeight.den + 1` is such a number whenever
`0 ≤ imgHeight` and `0 < pageHeight` (proved in `lt_pageFuel_mul`). -/
def pageFuel (imgHeight pageHeight : ℚ) : ℕ :=
  imgHeight.num.toNat * pageHeight.den + 1

/-- The `while (heightLeft >= 0)` loop of `createPDFFromCanvas`
(lines 523–528): each iteration records the vertical offset
`position = heightLeft - imgHeight` at which the full image is placed on
the freshly appended page, then decreases `heightLeft` by `pageHeight`.
`fuel` bounds the number of iterations; `pageFuel` always suffices. -/
def addImageLoop : ℕ → ℚ → ℚ → ℚ → List ℚ
  | 0, _, _, _ => []
  | fuel + 1, heightLeft, imgHeight, pageHeight =>
    if 0 ≤ heightLeft then
      (heightLeft - imgHeight) ::
        addImageLoop fuel (heightLeft - pageHeight) imgHeight pageHeight
    else []

/-- The per-page vertical image offsets produced by `createPDFFromCanvas`
for a scaled image of height `imgHeight` on pages of height `pageHeight`
(lines 512–528): the first page places the image at offset `0`, then
`heightLeft` starts at `imgHeight - pageHeight` and the loop appends the
remaining pages.  One image is placed per page, so the length of this list
is the number of pages of the resulting document. -/
def createPDFPages (imgHeight pageHeight : ℚ) : List ℚ :=
  0 :: addImageLoop (pageFuel imgHeight pageHeight)
      (imgHeight - pageHeight) imgHeight pageHeight

/-! ## Options, results, page setup -/

inductive Orientation where
  | portrait
  | landscape
deriving DecidableEq, Repr

inductive PaperFormat where
  | a4
  | letter
  | legal
deriving DecidableEq, Repr

/-- `PDFOptions` (lines 5–12).  In a JavaScript object each optional key
can be absent (`none`), present but bound to `undefined` (`some none`), or
present with a value (`some (some v)`); the distinction matters to the
object spread in the generators. -/
structure PDFOptions where
  filename : Option (Option String) := none
  title : Option (Option String) := none
  orientation : Option (Option Orientation) := none
  format : Option (Option PaperFormat) := none
  scale : Option (Option ℚ) := none
  quality : Option (Option ℚ) := none

/-- The configuration after `{ ...DEFAULT_OPTIONS, ...options }`: every key
is present, but its value is `undefined` (`none`) when the caller's object
carried that key explicitly bound to `undefined`. -/
structure MergedOptions where
  filename : Option String
  title : Option String
  orientation : Option Orientation
  format : Option PaperFormat
  scale : Option ℚ
  quality : Option ℚ

/-- One key of the object spread `{ ...defaults, ...options }`: an absent
key falls back to the default, a present key wins even when its value is
`undefined`. -/
def spreadKey {α : Type} (dflt : α) : Option (Option α) → Option α
  | none => some dflt
  | some v => v

/-- `DEFAULT_OPTIONS` spread-merged with the caller's options
(`PDFGenerator`, lines 171–178 and line 190). -/
def mergeOptions (options : PDFOptions) : MergedOptions where
  filename := spreadKey "document.pdf" options.filename
  title := spreadKey "Document" options.title
  orientation := spreadKey Orientation.portrait options.orientation
  format := spreadKey PaperFormat.a4 options.format
  scale := spreadKey 2 options.scale
  quality := spreadKey (95 / 100) options.quality

/-- `PDFGenerationResult` (lines 14–19).  `filename` is `some v` when the
key is set on the returned object, `v` being its (possibly `undefined`)
JavaScript value; `blob` holds the assembled page-offset list standing in
for the binary payload. -/
structure PDFGenerationResult where
  success : Bool
  error : Option String := none
  filename : Option (Option String) := none
  blob : Option (List ℚ) := none
deriving DecidableEq, Repr

/-- jsPDF page dimensions in millimetres for
`new jsPDF(orientation === 'landscape' ? 'l' : 'p', 'mm', format)`
(lines 489–493): a4 is 210×297, letter 215.9×279.4, legal 215.9×355.6.  An
`undefined` format falls back to jsPDF's default (a4), and any value other
than `'landscape'` (including `undefined`) selects portrait. -/
def pageSize (orientation : Option Orientation) (format : Option PaperFormat) :
    ℚ × ℚ :=
  let base : ℚ × ℚ :=
    match format with
    | some .letter => (2159 / 10, 2794 / 10)
    | some .legal => (2159 / 10, 3556 / 10)
    | _ => (210, 297)
  match orientation with
  | some .landscape => (base.2, base.1)
  | _ => base

/-- An html2canvas bitmap: pixel width and height. -/
structure Canvas where
  width : ℚ
  height : ℚ
deriving DecidableEq, Repr

/-- `PDFGenerator.createPDFFromCanvas` (lines 488–531), as the list of
per-page vertical image offsets of the assembled document. -/
def createPDFFromCanvas (canvas : Canvas) (config : MergedOptions) : List ℚ :=
  let dims := pageSize config.orientation config.format
  let imgHeight := scaledImageHeight canvas.width canvas.height dims.1
  createPDFPages imgHeight dims.2

/-! ## Generation entry points -/

/-- The browser/library effects an entry point performs, indexed by the
type `E` of DOM elements.  Each field models one throwing or `await`ed
call: `querySelector` throws a DOM `SyntaxError` on a malformed selector
and returns `none` when nothing matches; `capture` bundles the clone /
`preparePDFStyles` / `html2canvas` / `toDataURL` chain of
`generateFromElement` (lines 193–230 and 516), `captureHTML` the analogous
chain of `generateFromHTML` (lines 306–328); `save` is
`pdf.save(filename)`. -/
structure BrowserEnv (E : Type) where
  querySelector : String → Except Thrown (Option E)
  capture : E → Except Thrown Canvas
  captureHTML : String → Except Thrown Canvas
  save : Option String → Except Thrown Unit

/-- `PDFGenerator.generateFromElement` (lines 186–249): the whole body sits
inside one `try`; any throw is caught and reported as a failed result whose
message is `error.message` for `Error` instances and
`'Unknown error occurred'` otherwise. -/
def generateFromElement {E : Type} (env : BrowserEnv E) (element : E)
    (options : PDFOptions) : PDFGenerationResult :=
  let config := mergeOptions options
  match env.capture element with
  | .error t => { success := false, error := some (t.messageOr "Unknown error occurred") }
  | .ok canvas =>
      let _pdf := createPDFFromCanvas canvas config
      match env.save config.filename with
      | .error t => { success := false, error := some (t.messageOr "Unknown error occurred") }
      | .ok _ => { success := true, filename := some config.filename }

/-- `PDFGenerator.generateFromSelector` (lines 257–271).  The
`document.querySelector` call happens before any `try`/`catch`, so a
throwing selector lookup escapes as a rejection of the returned promise;
the `Except` return type records that possibility. -/
def generateFromSelector {E : Type} (env : BrowserEnv E) (selector : String)
    (options : PDFOptions) : Except Thrown PDFGenerationResult :=
  match env.querySelector selector with
  | .error t => .error t
  | .ok none =>
      .ok { success := false,
            error := some ("Element with selector \"" ++ selector ++ "\" not found") }
  | .ok (some element) => .ok (generateFromElement env element options)

/-- `PDFGenerator.generateFromRef` (lines 279–291); `refCurrent` stands for
`ref.current`, which is `null` for an unattached ref. -/
def generateFromRef {E : Type} (env : BrowserEnv E) (refCurrent : Option E)
    (options : PDFOptions) : PDFGenerationResult :=
  match refCurrent with
  | none => { success := false, error := some "Ref element is null or undefined" }
  | some element => generateFromElement env element options

/-- `PDFGenerator.generateFromHTML` (lines 299–354): like
`generateFromElement` but rasterizing a temporary div filled with the given
markup, and additionally returning the binary payload as `blob`. -/
def generateFromHTML {E : Type} (env : BrowserEnv E) (html : String)
    (options : PDFOptions) : PDFGenerationResult :=
  let config := mergeOptions options
  match env.captureHTML html with
  | .error t => { success := false, error := some (t.messageOr "Unknown error occurred") }
  | .ok canvas =>
      let pdf := createPDFFromCanvas canvas config
      match env.save config.filename with
      | .error t => { success := false, error := some (t.messageOr "Unknown error occurred") }
      | .ok _ => { success := true, filename := some config.filename, blob := some pdf }

/-! ## Invoice and bulk generators -/

/-- Helper for `customerName.replace(/\s+/g, '_')`: the Boolean tracks
whether the previous character belonged to a whitespace run, so that every
maximal run becomes a single underscore. -/
def underscoreRunsAux : Bool → List Char → List Char
  | _, [] => []
  | prevWS, c :: cs =>
      if c.isWhitespace then
        if prevWS then underscoreRunsAux true cs
        else '_' :: underscoreRunsAux true cs
      else c :: underscoreRunsAux false cs

/-- `s.replace(/\s+/g, '_')`. -/
def replaceWhitespaceRuns (s : String) : String :=
  ⟨underscoreRunsAux false s.data⟩

/-- `InvoicePDFGenerator.generateInvoicePDF` (lines 773–786).  The optional
`customerName` falls back to `'customer'` when absent or empty (JavaScript
truthiness of the conditional at line 778). -/
def generateInvoicePDF {E : Type} (env : BrowserEnv E) (refCurrent : Option E)
    (invoiceNumber : String) (customerName : Option String) : PDFGenerationResult :=
  let namePart :=
    match customerName with
    | some s => if s = "" then "customer" else replaceWhitespaceRuns s
    | none => "customer"
  generateFromRef env refCurrent
    { filename := some (some ("invoice_" ++ invoiceNumber ++ "_" ++ namePart ++ ".pdf"))
      title := some (some ("Invoice " ++ invoiceNumber))
      orientation := some (some .portrait)
      format := some (some .a4) }

/-- One entry of the `invoices` argument of
`BulkPDFGenerator.processBulkInvoices` (lines 1335–1340); `element` is an
`Option` because the claimed failure scenario passes a `null` source
element through the ref. -/
structure BulkInvoice (E : Type) where
  id : String
  element : Option E
  invoiceNumber : String
  customerName : String
deriving DecidableEq, Repr

/-- The result record accumulated by `processBulkInvoices`
(lines 1346–1357). -/
structure BulkResults where
  success : Bool
  processed : ℕ
  failed : ℕ
  errors : List String
deriving DecidableEq, Repr

/-- The per-item generation performed inside the loop of
`processBulkInvoices` (lines 1367–1371): `generateInvoicePDF` is called
with the ref `{ current: invoice.element }`. -/
def bulkItemResult {E : Type} (env : BrowserEnv E) (invoice : BulkInvoice E) :
    PDFGenerationResult :=
  generateInvoicePDF env invoice.element invoice.invoiceNumber
    (some invoice.customerName)

/-- One iteration of the `for` loop of `processBulkInvoices`
(lines 1359–1383): generate this invoice's PDF, then either count it as
processed, or count it as failed and append
`invoiceNumber + ': ' + (result.error || 'Unknown error')` to the error
list. -/
def processBulkStep {E : Type} (env : BrowserEnv E) (acc : BulkResults)
    (invoice : BulkInvoice E) : BulkResults :=
  let result := bulkItemResult env invoice
  if result.success then
    { acc with processed := acc.processed + 1 }
  else
    { acc with
      failed := acc.failed + 1
      errors := acc.errors ++
        [invoice.invoiceNumber ++ ": " ++ jsOrElse result.error "Unknown error"] }

/-- `BulkPDFGenerator.processBulkInvoices` (lines 1334–1387): fold the
per-invoice step over the list in order, then set
`success = (failed === 0)` (line 1385).  The `onProgress` callback is
omitted: it returns no data, so with no caller-supplied throwing callback
it cannot affect the result. -/
def processBulkInvoices {E : Type} (env : BrowserEnv E)
    (invoices : List (BulkInvoice E)) : BulkResults :=
  let r := invoices.foldl (processBulkStep env)
    { success := true, processed := 0, failed := 0, errors := [] }
  { r with success := decide (r.failed = 0) }

/-! ## Download Ledger (`PDFAnalytics`, lines 1512–1571) -/

/-- One entry of `PDFAnalytics.downloadHistory` (lines 1513–1518): the
recorded filename, the completion timestamp (`new Date()`, modelled in
milliseconds), the byte size, and the document category (`type`). -/
structure DownloadRecord where
  filename : String
  timestamp : ℕ
  size : ℚ
  type : String
deriving DecidableEq, Repr

/-- `PDFAnalytics.recordDownload` (lines 1526–1538): push the entry, then
keep only the last 100 entries (`slice(-100)`) when the buffer length
exceeds 100. -/
def recordDownload (entry : DownloadRecord) (history : List DownloadRecord) :
    List DownloadRecord :=
  let h := history ++ [entry]
  if 100 < h.length then h.drop (h.length - 100) else h

/-- A sequence of `recordDownload` calls applied in order, starting from
the initially empty module-level buffer. -/
def recordAll (entries : List DownloadRecord) : List DownloadRecord :=
  entries.foldl (fun h e => recordDownload e h) []

/-- The record returned by `PDFAnalytics.getStatistics`; `typeBreakdown`
is the accumulated per-category counter object, read as a total map. -/
structure DownloadStatistics where
  totalDownloads : ℕ
  totalSize : ℚ
  averageSize : ℚ
  typeBreakdown : String → ℕ
  recentDownloads : List DownloadRecord

/-- `PDFAnalytics.getStatistics` (lines 1544–1563): the totals, the guarded
average (`total > 0 ? totalSize / total : 0`), the per-category reduce, and
the last ten entries sorted by descending timestamp
(`slice(-10).sort((a, b) => b.timestamp - a.timestamp)`; the JavaScript
comparison sort is modelled by `mergeSort` under the same descending
order). -/
def getStatistics (history : List DownloadRecord) : DownloadStatistics :=
  let total := history.length
  let totalSize := (history.map (fun e => e.size)).sum
  { totalDownloads := total
    totalSize := totalSize
    averageSize := if 0 < total then totalSize / (total : ℚ) else 0
    typeBreakdown := fun t => history.countP (fun e => e.type == t)
    recentDownloads := (history.drop (history.length - 10)).mergeSort
      (fun a b => decide (b.timestamp ≤ a.timestamp)) }

/-! ## Concrete environments and inputs used in closed instantiations -/

/-- A browser environment over a one-`Unit`-element DOM in which the
selector lookup throws, as `document.querySelector` does on a malformed
selector, while all other effects succeed. -/
def throwingSelectorEnv : BrowserEnv Unit where
  querySelector := fun _ =>
    .error (.errorObj "Failed to execute querySelector on Document: div::: is not a valid selector.")
  capture := fun _ => .ok ⟨800, 600⟩
  captureHTML := fun _ => .ok ⟨800, 600⟩
  save := fun _ => .ok ()

/-- A browser environment in which every effect succeeds; the selector
lookup finds no match (`querySelector` returns `null`). -/
def okEnv : BrowserEnv Unit where
  querySelector := fun _ => .ok none
  capture := fun _ => .ok ⟨800, 600⟩
  captureHTML := fun _ => .ok ⟨800, 600⟩
  save := fun _ => .ok ()

/-- 101 ledger entries with increasing timestamps, one more than the
ring-buffer capacity. -/
def ledgerBurst : List DownloadRecord :=
  (List.range 101).map
    (fun k => { filename := "doc.pdf", timestamp := k, size := 1, type := "document" })

/-- The third bulk item of `bulkFive`: a `null` source element. -/
def badInvoice : BulkInvoice Unit :=
  { id := "3", element := none, invoiceNumber := "INV-3", customerName := "Cy" }

/-- Five bulk-invoice items over a one-`Unit`-element DOM; item 3 carries
a `null` source element and is therefore unresolvable. -/
def bulkFive : List (BulkInvoice Unit) :=
  [ { id := "1", element := some (), invoiceNumber := "INV-1", customerName := "Ada" },
    { id := "2", element := some (), invoiceNumber := "INV-2", customerName := "Bob" },
    { id := "3", element := none, invoiceNumber := "INV-3", customerName := "Cy" },
    { id := "4", element := some (), invoiceNumber := "INV-4", customerName := "Di" },
    { id := "5", element := some (), invoiceNumber := "INV-5", customerName := "Ed" } ]

/-! ## Supporting lemmas -/

lemma lt_pageFuel_mul {h p : ℚ} (hh : 0 ≤ h) (hp : 0 < p) :
    h < (pageFuel h p : ℚ) * p := by
  have hden : (0:ℚ) < (p.den : ℚ) := by exact_mod_cast p.den_pos
  have hnum1 : (1:ℚ) ≤ (p.num : ℚ) := by
    have h1 : (1:ℤ) ≤ p.num := by have := Rat.num_pos.mpr hp; omega
    exact_mod_cast h1
  have hpn : (p.num : ℚ) = p * (p.den : ℚ) :=
    (div_eq_iff (ne_of_gt hden)).mp (Rat.num_div_den p)
  have f2 : (1:ℚ) ≤ (p.den : ℚ) * p := by rw [mul_comm, ← hpn]; exact hnum1
  have h0 : (0:ℤ) ≤ h.num := Rat.num_nonneg.mpr hh
  have e : ((h.num.toNat : ℕ) : ℚ) = ((h.num : ℤ) : ℚ) := by
    exact_mod_cast congrArg (fun z : ℤ => (z : ℚ)) (Int.toNat_of_nonneg h0)
  have f1 : h ≤ ((h.num.toNat : ℕ) : ℚ) := by
    have hden1 : (1:ℚ) ≤ (h.den : ℚ) := by exact_mod_cast h.den_pos
    calc h = (h.num : ℚ) / (h.den : ℚ) := (Rat.num_div_den h).symm
    _ ≤ (h.num : ℚ) := div_le_self (by exact_mod_cast h0) hden1
    _ = ((h.num.toNat : ℕ) : ℚ) := e.symm
  have f3 : (0:ℚ) ≤ ((h.num.toNat : ℕ) : ℚ) := by positivity
  have f5 : ((h.num.toNat : ℕ) : ℚ) * 1 ≤ ((h.num.toNat : ℕ) : ℚ) * ((p.den : ℚ) * p) :=
    mul_le_mul_of_nonneg_left f2 f3
  have key : ((pageFuel h p : ℕ) : ℚ) = ((h.num.toNat : ℕ) : ℚ) * (p.den : ℚ) + 1 := by
    unfold pageFuel
    push_cast
    ring
  rw [key]
  nlinarith [f1, f5, hp]

lemma addImageLoop_eq {P : ℚ} (hP : 0 < P) (imgH : ℚ) :
    ∀ (fuel : ℕ) (x : ℚ), x < (fuel : ℚ) * P →
      addImageLoop fuel x imgH P =
        (List.range (⌊x / P⌋ + 1).toNat).map (fun (k : ℕ) => (x - (k : ℚ) * P) - imgH) := by
  intro fuel
  induction fuel with
  | zero =>
      intro x hx
      have hx0 : x < 0 := by simpa using hx
      have hfl : ⌊x / P⌋ < 0 := by
        rw [Int.floor_lt]
        push_cast
        exact div_neg_of_neg_of_pos hx0 hP
      have hz : (⌊x / P⌋ + 1).toNat = 0 := by omega
      simp [addImageLoop, hz]
  | succ fuel ih =>
      intro x hx
      by_cases hx0 : 0 ≤ x
      · have hsub : x - P < (fuel : ℚ) * P := by
          push_cast at hx
          linarith
        have hdiv : (x - P) / P = x / P - 1 := by
          field_simp
        have hfl : ⌊(x - P) / P⌋ = ⌊x / P⌋ - 1 := by
          rw [hdiv]
          exact_mod_cast Int.floor_sub_int (x / P) 1
        have hfl0 : 0 ≤ ⌊x / P⌋ := Int.floor_nonneg.mpr (div_nonneg hx0 hP.le)
        have hn : (⌊x / P⌋ + 1).toNat = (⌊(x - P) / P⌋ + 1).toNat + 1 := by omega
        simp only [addImageLoop, if_pos hx0]
        rw [ih (x - P) hsub, hn, List.range_succ_eq_map, List.map_cons, List.map_map]
        refine congrArg₂ List.cons ?_ ?_
        · simp
        · have hfun : (fun k : ℕ => ((x - P) - (k : ℚ) * P) - imgH) =
              ((fun k : ℕ => (x - (k : ℚ) * P) - imgH) ∘ Nat.succ) := by
            funext k
            simp [Function.comp]
            ring
          rw [hfun]
      · have hx0' : x < 0 := lt_of_not_ge hx0
        have hfl : ⌊x / P⌋ < 0 := by
          rw [Int.floor_lt]
          push_cast
          exact div_neg_of_neg_of_pos hx0' hP
        have hz : (⌊x / P⌋ + 1).toNat = 0 := by omega
        simp [addImageLoop, if_neg hx0, hz]

lemma createPDFPages_eq {H P : ℚ} (hH : 0 ≤ H) (hP : 0 < P) :
    createPDFPages H P =
      (List.range (⌊H / P⌋.toNat + 1)).map (fun (k : ℕ) => (H - (k : ℚ) * P) - H) := by
  have hfuel : H - P < (pageFuel H P : ℚ) * P := by
    have := lt_pageFuel_mul hH hP
    linarith
  have hfl0 : 0 ≤ ⌊H / P⌋ := Int.floor_nonneg.mpr (div_nonneg hH hP.le)
  have hdiv : (H - P) / P = H / P - 1 := by field_simp
  have hfl : ⌊(H - P) / P⌋ = ⌊H / P⌋ - 1 := by
    rw [hdiv]
    exact_mod_cast Int.floor_sub_int (H / P) 1
  have hn : (⌊(H - P) / P⌋ + 1).toNat = ⌊H / P⌋.toNat := by omega
  unfold createPDFPages
  rw [addImageLoop_eq hP H (pageFuel H P) (H - P) hfuel, hn,
    List.range_succ_eq_map, List.map_cons, List.map_map]
  refine congrArg₂ List.cons ?_ ?_
  · simp
  · have hfun : (fun k : ℕ => ((H - P) - (k : ℚ) * P) - H) =
        ((fun k : ℕ => (H - (k : ℚ) * P) - H) ∘ Nat.succ) := by
      funext k
      simp [Function.comp]
      ring
    rw [hfun]

lemma createPDFPages_length {H P : ℚ} (hH : 0 ≤ H) (hP : 0 < P) :
    (createPDFPages H P).length = ⌊H / P⌋.toNat + 1 := by
  rw [createPDFPages_eq hH hP]
  simp

lemma recordAll_append (l : List DownloadRecord) (e : DownloadRecord) :
    recordAll (l ++ [e]) = recordDownload e (recordAll l) := by
  unfold recordAll
  rw [List.foldl_append]
  rfl

lemma recordAll_eq (entries : List DownloadRecord) :
    recordAll entries = entries.drop (entries.length - 100) := by
  induction entries using List.reverseRecOn with
  | nil => rfl
  | append_singleton l e ih =>
      rw [recordAll_append, ih]
      by_cases hn : l.length < 100
      · have h1 : l.length - 100 = 0 := by omega
        rw [h1, List.drop_zero]
        unfold recordDownload
        simp only [List.length_append, List.length_singleton]
        rw [if_neg (by omega)]
        have h2 : l.length + 1 - 100 = 0 := by omega
        rw [h2, List.drop_zero]
      · have hlen_drop : (l.drop (l.length - 100)).length = 100 := by
          rw [List.length_drop]
          omega
        unfold recordDownload
        simp only [List.length_append, List.length_singleton, hlen_drop]
        rw [if_pos (by omega)]
        have h1 : 100 + 1 - 100 = 1 := by omega
        have h2 : l.length + 1 - 100 = (l.length - 100) + 1 := by omega
        rw [h1, h2]
        rw [List.drop_append_of_le_length (by rw [hlen_drop]; omega)]
        rw [List.drop_drop]
        rw [List.drop_append_of_le_length (by omega)]

lemma recordAll_length (entries : List DownloadRecord) :
    (recordAll entries).length = min entries.length 100 := by
  rw [recordAll_eq, List.length_drop]
  omega

lemma recent_sorted (history : List DownloadRecord) :
    ((getStatistics history).recentDownloads).Sorted
      (fun a b => b.timestamp ≤ a.timestamp) := by
  have h : List.Pairwise
      (fun a b : DownloadRecord => decide (b.timestamp ≤ a.timestamp) = true)
      ((history.drop (history.length - 10)).mergeSort
        (fun a b => decide (b.timestamp ≤ a.timestamp))) :=
    List.sorted_mergeSort
      (fun a b c hab hbc => by
        simp only [decide_eq_true_eq] at *
        omega)
      (fun a b => by
        rcases Nat.le_total a.timestamp b.timestamp with hle | hle <;> simp [hle])
      (history.drop (history.length - 10))
  exact h.imp (fun hab => of_decide_eq_true hab)

lemma recent_length_le (history : List DownloadRecord) :
    ((getStatistics history).recentDownloads).length ≤ 10 := by
  show ((history.drop (history.length - 10)).mergeSort _).length ≤ 10
  rw [List.length_mergeSort, List.length_drop]
  omega

lemma generateFromElement_cases {E : Type} (env : BrowserEnv E) (el : E)
    (opts : PDFOptions) :
    ((generateFromElement env el opts).success = true ∧
      (generateFromElement env el opts).error = none ∧
      (generateFromElement env el opts).filename = some ((mergeOptions opts).filename))
  ∨ ((generateFromElement env el opts).success = false ∧
      (generateFromElement env el opts).error ≠ none) := by
  unfold generateFromElement
  cases hcap : env.capture el with
  | error t => right; simp
  | ok c =>
      cases hsave : env.save (mergeOptions opts).filename with
      | error t => right; simp [hsave]
      | ok u => left; simp [hsave]

lemma generateFromElement_filename_of_success {E : Type} (env : BrowserEnv E)
    (el : E) (opts : PDFOptions)
    (hs : (generateFromElement env el opts).success = true) :
    (generateFromElement env el opts).filename = some ((mergeOptions opts).filename) := by
  rcases generateFromElement_cases env el opts with ⟨_, _, hf⟩ | ⟨hfalse, _⟩
  · exact hf
  · rw [hfalse] at hs
    simp at hs

lemma generateFromHTML_cases {E : Type} (env : BrowserEnv E) (html : String)
    (opts : PDFOptions) :
    ((generateFromHTML env html opts).success = true ∧
      (generateFromHTML env html opts).error = none)
  ∨ ((generateFromHTML env html opts).success = false ∧
      (generateFromHTML env html opts).error ≠ none) := by
  unfold generateFromHTML
  cases hcap : env.captureHTML html with
  | error t => right; simp
  | ok c =>
      cases hsave : env.save (mergeOptions opts).filename with
      | error t => right; simp [hsave]
      | ok u => left; simp [hsave]

lemma processBulk_foldl {E : Type} (env : BrowserEnv E)
    (invoices : List (BulkInvoice E)) :
    ∀ acc : BulkResults,
      invoices.foldl (processBulkStep env) acc =
        { success := acc.success
          processed := acc.processed +
            invoices.countP (fun inv => (bulkItemResult env inv).success)
          failed := acc.failed +
            invoices.countP (fun inv => !(bulkItemResult env inv).success)
          errors := acc.errors ++
            (invoices.filter (fun inv => !(bulkItemResult env inv).success)).map
              (fun inv => inv.invoiceNumber ++ ": " ++
                jsOrElse (bulkItemResult env inv).error "Unknown error") } := by
  induction invoices with
  | nil => intro acc; simp
  | cons inv invs ih =>
      intro acc
      rw [List.foldl_cons, ih (processBulkStep env acc inv)]
      by_cases hs : (bulkItemResult env inv).success = true
      · simp [processBulkStep, hs, List.countP_cons, List.filter_cons]
        omega
      · rw [Bool.not_eq_true] at hs
        simp [processBulkStep, hs, List.countP_cons, List.filter_cons]
        omega

/-! ## Claim theorems -/

/-- C1 (amended): for every scaled image height `H ≥ 0` and page height
`P > 0`, the pagination of `createPDFFromCanvas` produces exactly
`⌊H / P⌋ + 1` pages.  This equals `⌈H / P⌉` whenever `P` does not divide
`H`, but is one page more (a trailing blank page) when `H` is an exact
multiple of `P`, including `H = 0`. -/
theorem claim_C1_page_count (H P : ℚ) (hH : 0 ≤ H) (hP : 0 < P) :
    (createPDFPages H P).length = ⌊H / P⌋.toNat + 1 :=
  createPDFPages_length hH hP

/-- Closed instantiation of `claim_C1_page_count` at `H = 250`, `P = 100`:
three pages, matching `⌈250 / 100⌉` away from exact multiples. -/
theorem claim_C1_witness :
    (0:ℚ) ≤ 250 ∧ (0:ℚ) < 100 ∧ (createPDFPages 250 100).length = 3 := by
  have h2 : ⌊(250:ℚ) / 100⌋ = 2 := by norm_num
  exact ⟨by norm_num, by norm_num, by
    rw [claim_C1_page_count 250 100 (by norm_num) (by norm_num), h2]
    rfl⟩

/-- C1 counterexample: at `H = P = 297` (an image exactly one page tall)
the code produces 2 pages while `⌈H / P⌉ = 1`, so the claimed
`ceil(H / P)` page count is wrong at exact multiples. -/
theorem claim_C1_counterexample :
    (createPDFPages 297 297).length = 2 ∧ (⌈(297:ℚ) / 297⌉ : ℤ) = 1 := by
  constructor
  · have h1 : ⌊(297:ℚ) / 297⌋ = 1 := by norm_num
    rw [createPDFPages_length (by norm_num) (by norm_num), h1]
    rfl
  · norm_num

/-- C7: page 1 places the full image at vertical offset `0`; page `k + 1`
places the same full image at offset `(H - k·P) - H`, i.e. at
`remainingHeight - scaledImageHeight` with `remainingHeight` decreasing by
`P` per page; and the visible source bands `[k·P, (k+1)·P)` of the pages
cover `[0, H)` with no gap and no overlap (each `y ∈ [0, H)` is visible on
exactly one page; the last band may be shorter than a full page). -/
theorem claim_C7_slices (H P : ℚ) (hH : 0 ≤ H) (hP : 0 < P) :
    (createPDFPages H P).head? = some 0
  ∧ createPDFPages H P =
      (List.range ((createPDFPages H P).length)).map
        (fun (k : ℕ) => (H - (k : ℚ) * P) - H)
  ∧ (∀ y : ℚ, 0 ≤ y → y < H →
      ∃! k : ℕ, k < (createPDFPages H P).length ∧
        (k : ℚ) * P ≤ y ∧ y < ((k : ℚ) + 1) * P) := by
  have heq := createPDFPages_eq hH hP
  have hlen := createPDFPages_length hH hP
  refine ⟨?_, ?_, ?_⟩
  · rw [heq, List.range_succ_eq_map]
    simp
  · rw [hlen]
    exact heq
  · intro y hy0 hyH
    have hyP : 0 ≤ y / P := div_nonneg hy0 hP.le
    have hfl0 : 0 ≤ ⌊y / P⌋ := Int.floor_nonneg.mpr hyP
    have hcast : ((⌊y / P⌋.toNat : ℕ) : ℚ) = ((⌊y / P⌋ : ℤ) : ℚ) := by
      exact_mod_cast congrArg (fun z : ℤ => (z : ℚ)) (Int.toNat_of_nonneg hfl0)
    refine ⟨⌊y / P⌋.toNat, ⟨?_, ?_, ?_⟩, ?_⟩
    · rw [hlen]
      have hmono : ⌊y / P⌋ ≤ ⌊H / P⌋ :=
        Int.floor_le_floor ((div_le_div_iff_of_pos_right hP).mpr hyH.le)
      omega
    · rw [hcast]
      have hle := Int.floor_le (y / P)
      calc ((⌊y / P⌋ : ℤ) : ℚ) * P ≤ (y / P) * P :=
            mul_le_mul_of_nonneg_right hle hP.le
      _ = y := div_mul_cancel₀ y (ne_of_gt hP)
    · rw [hcast]
      have hlt := Int.lt_floor_add_one (y / P)
      calc y = (y / P) * P := (div_mul_cancel₀ y (ne_of_gt hP)).symm
      _ < (((⌊y / P⌋ : ℤ) : ℚ) + 1) * P := mul_lt_mul_of_pos_right hlt hP
    · intro j hj
      obtain ⟨hjlen, hjle, hjlt⟩ := hj
      have h1 : ((j : ℕ) : ℚ) ≤ y / P := (le_div_iff₀ hP).mpr hjle
      have h2 : y / P < ((j : ℕ) : ℚ) + 1 := (div_lt_iff₀ hP).mpr hjlt
      have hfloor : ⌊y / P⌋ = (j : ℤ) := by
        rw [Int.floor_eq_iff]
        constructor
        · push_cast
          exact h1
        · push_cast
          exact h2
      omega

/-- Closed instantiation of `claim_C7_slices`: with `H = 250`, `P = 100`,
the source row `y = 150` is visible on exactly one page. -/
theorem claim_C7_witness :
    (0:ℚ) ≤ 250 ∧ (0:ℚ) < 100 ∧ (0:ℚ) ≤ 150 ∧ (150:ℚ) < 250 ∧
    (∃! k : ℕ, k < (createPDFPages 250 100).length ∧
      (k : ℚ) * 100 ≤ 150 ∧ (150:ℚ) < ((k : ℚ) + 1) * 100) :=
  ⟨by norm_num, by norm_num, by norm_num, by norm_num,
    (claim_C7_slices 250 100 (by norm_num) (by norm_num)).2.2 150
      (by norm_num) (by norm_num)⟩

/-- C2 (amended): for every lightness value whose first parameter parses
(`parseFloat` yields a finite number) the Color Normalizer emits the
grayscale `rgb(g, g, g)` with `g = round(L·255)` — for `L ∈ [0, 1]` as the
claim states, but in fact for every parseable `L`, with no clamping to
`[0, 1]`; only an unparseable first parameter (or a missing one) yields the
`rgb(128, 128, 128)` fallback. -/
theorem claim_C2_normalizer :
    (∀ (L : ℚ) (rest : List JSNumber), 0 ≤ L → L ≤ 1 →
        convertOklchToRgb (.num L :: rest) =
          ⟨jsRound (L * 255), jsRound (L * 255), jsRound (L * 255)⟩)
  ∧ (∀ (L : ℚ) (rest : List JSNumber),
        convertOklchToRgb (.num L :: rest) =
          ⟨jsRound (L * 255), jsRound (L * 255), jsRound (L * 255)⟩)
  ∧ (∀ rest : List JSNumber, convertOklchToRgb (.nan :: rest) = ⟨128, 128, 128⟩)
  ∧ convertOklchToRgb [] = ⟨128, 128, 128⟩ :=
  ⟨fun _ _ _ _ => rfl, fun _ _ => rfl, fun _ => rfl, rfl⟩

/-- Closed instantiation of `claim_C2_normalizer` at `L = 1/2`:
`round(0.5 · 255) = 128`, so the emitted color is `rgb(128, 128, 128)`. -/
theorem claim_C2_witness :
    (0:ℚ) ≤ 1/2 ∧ (1/2:ℚ) ≤ 1 ∧
      convertOklchToRgb [JSNumber.num (1/2)] = ⟨128, 128, 128⟩ := by
  have hg : jsRound ((1/2:ℚ) * 255) = 128 := by
    unfold jsRound
    norm_num
  refine ⟨by norm_num, by norm_num, ?_⟩
  rw [claim_C2_normalizer.1 (1/2) [] (by norm_num) (by norm_num), hg]

/-- C2 counterexample: the parseable lightness `L = 2` lies outside
`[0, 1]`, yet the normalizer emits `rgb(510, 510, 510)` — not the claimed
`rgb(128, 128, 128)` fallback; the source never range-checks `L`. -/
theorem claim_C2_counterexample :
    ¬((2:ℚ) ≤ 1) ∧ convertOklchToRgb [JSNumber.num 2] = ⟨510, 510, 510⟩ ∧
      convertOklchToRgb [JSNumber.num 2] ≠ ⟨128, 128, 128⟩ := by
  have hg : jsRound ((2:ℚ) * 255) = 510 := by
    unfold jsRound
    norm_num
  have hval : convertOklchToRgb [JSNumber.num 2] = ⟨510, 510, 510⟩ := by
    simp [convertOklchToRgb, hg]
  refine ⟨by norm_num, hval, ?_⟩
  rw [hval]
  decide

/-- C3 (amended): `generateFromElement`, `generateFromHTML` and
`generateFromRef` always return a `PDFGenerationResult` distinguishing
success (no error message) from failure (an error message), whatever the
internal steps do, and a `null` ref is reported with its descriptive
message; `generateFromSelector` does the same whenever the selector lookup
itself returns (in particular reporting a no-match selector as a failed
result) — but, contrary to the claim, a malformed selector whose lookup
throws escapes `generateFromSelector` uncaught (see
`claim_C3_counterexample`). -/
theorem claim_C3_entry_points {E : Type} (env : BrowserEnv E) :
    (∀ (el : E) (opts : PDFOptions),
        ((generateFromElement env el opts).success = true ∧
          (generateFromElement env el opts).error = none)
      ∨ ((generateFromElement env el opts).success = false ∧
          (generateFromElement env el opts).error ≠ none))
  ∧ (∀ (html : String) (opts : PDFOptions),
        ((generateFromHTML env html opts).success = true ∧
          (generateFromHTML env html opts).error = none)
      ∨ ((generateFromHTML env html opts).success = false ∧
          (generateFromHTML env html opts).error ≠ none))
  ∧ (∀ (refCurrent : Option E) (opts : PDFOptions),
        ((generateFromRef env refCurrent opts).success = true ∧
          (generateFromRef env refCurrent opts).error = none)
      ∨ ((generateFromRef env refCurrent opts).success = false ∧
          (generateFromRef env refCurrent opts).error ≠ none))
  ∧ (∀ opts : PDFOptions, generateFromRef env none opts =
      { success := false, error := some "Ref element is null or undefined" })
  ∧ (∀ (selector : String) (opts : PDFOptions) (found : Option E),
      env.querySelector selector = .ok found →
        ∃ res : PDFGenerationResult,
          generateFromSelector env selector opts = .ok res ∧
            ((res.success = true ∧ res.error = none) ∨
             (res.success = false ∧ res.error ≠ none))) := by
  refine ⟨?_, ?_, ?_, fun opts => rfl, ?_⟩
  · intro el opts
    rcases generateFromElement_cases env el opts with ⟨h1, h2, _⟩ | ⟨h1, h2⟩
    · exact Or.inl ⟨h1, h2⟩
    · exact Or.inr ⟨h1, h2⟩
  · intro html opts
    exact generateFromHTML_cases env html opts
  · intro refCurrent opts
    cases refCurrent with
    | none => exact Or.inr ⟨rfl, by simp [generateFromRef]⟩
    | some el =>
        rcases generateFromElement_cases env el opts with ⟨h1, h2, _⟩ | ⟨h1, h2⟩
        · exact Or.inl ⟨h1, h2⟩
        · exact Or.inr ⟨h1, h2⟩
  · intro selector opts found hq
    cases found with
    | none =>
        refine ⟨⟨false,
            some ("Element with selector \"" ++ selector ++ "\" not found"),
            none, none⟩, ?_, ?_⟩
        · unfold generateFromSelector
          rw [hq]
        · exact Or.inr ⟨rfl, by simp⟩
    | some el =>
        refine ⟨generateFromElement env el opts, ?_, ?_⟩
        · unfold generateFromSelector
          rw [hq]
        · rcases generateFromElement_cases env el opts with ⟨h1, h2, _⟩ | ⟨h1, h2⟩
          · exact Or.inl ⟨h1, h2⟩
          · exact Or.inr ⟨h1, h2⟩

/-- Closed instantiation of `claim_C3_entry_points`: in `okEnv` the
selector lookup returns without throwing (finding no match), and
`generateFromSelector` then returns a failed-but-caught result. -/
theorem claim_C3_witness :
    okEnv.querySelector "#invoice" = .ok none ∧
    ∃ res : PDFGenerationResult,
      generateFromSelector okEnv "#invoice" {} = .ok res ∧
        ((res.success = true ∧ res.error = none) ∨
         (res.success = false ∧ res.error ≠ none)) :=
  ⟨rfl, (claim_C3_entry_points okEnv).2.2.2.2 "#invoice" {} none rfl⟩

/-- C3 counterexample: a malformed selector makes the
`document.querySelector` call of `generateFromSelector` throw before any
`try`/`catch`, so the entry point rejects (an `Except.error`, not a
`PDFGenerationResult`): an exception escapes uncaught, contrary to the
claimed propagation policy. -/
theorem claim_C3_counterexample :
    generateFromSelector throwingSelectorEnv "div:::" {} =
      .error (.errorObj
        "Failed to execute querySelector on Document: div::: is not a valid selector.") :=
  rfl

/-- C6: on every successful `generateFromElement` call, the `filename` of
the result equals the `filename` supplied in the options when one was
given, and the default `"document.pdf"` when the key was omitted. -/
theorem claim_C6_filename {E : Type} (env : BrowserEnv E) (el : E)
    (opts : PDFOptions)
    (hs : (generateFromElement env el opts).success = true) :
    (∀ s : String, opts.filename = some (some s) →
        (generateFromElement env el opts).filename = some (some s))
  ∧ (opts.filename = none →
        (generateFromElement env el opts).filename = some (some "document.pdf")) := by
  have hres := generateFromElement_filename_of_success env el opts hs
  constructor
  · intro s hfn
    rw [hres]
    simp [mergeOptions, spreadKey, hfn]
  · intro hfn
    rw [hres]
    simp [mergeOptions, spreadKey, hfn]

/-- Closed instantiation of `claim_C6_filename`: a successful call with
`filename: 'invoice-42.pdf'` resolves to that filename. -/
theorem claim_C6_witness :
    (generateFromElement okEnv () { filename := some (some "invoice-42.pdf") }).success = true ∧
    (generateFromElement okEnv () { filename := some (some "invoice-42.pdf") }).filename =
      some (some "invoice-42.pdf") := by
  have hs : (generateFromElement okEnv ()
      { filename := some (some "invoice-42.pdf") }).success = true := rfl
  exact ⟨hs, (claim_C6_filename okEnv () _ hs).1 "invoice-42.pdf" rfl⟩

/-- C10: when the options object carries `filename` explicitly bound to
`undefined`, the spread merge overrides the default with `undefined`, so a
successful result resolves its filename to `undefined` rather than
`"document.pdf"`. -/
theorem claim_C10_undefined_key {E : Type} (env : BrowserEnv E) (el : E)
    (opts : PDFOptions) (hf : opts.filename = some none)
    (hs : (generateFromElement env el opts).success = true) :
    (mergeOptions opts).filename = none
  ∧ (generateFromElement env el opts).filename = some none
  ∧ (generateFromElement env el opts).filename ≠ some (some "document.pdf") := by
  have hmerge : (mergeOptions opts).filename = none := by
    simp [mergeOptions, spreadKey, hf]
  have hres := generateFromElement_filename_of_success env el opts hs
  refine ⟨hmerge, ?_, ?_⟩
  · rw [hres, hmerge]
  · rw [hres, hmerge]
    simp

/-- Closed instantiation of `claim_C10_undefined_key` at
`{ filename: undefined }` in the all-succeeding environment. -/
theorem claim_C10_witness :
    ({ filename := some none } : PDFOptions).filename = some none ∧
    (generateFromElement okEnv () { filename := some none }).success = true ∧
    (generateFromElement okEnv () { filename := some none }).filename = some none := by
  have hs : (generateFromElement okEnv () { filename := some none }).success = true := rfl
  exact ⟨rfl, hs, (claim_C10_undefined_key okEnv () _ rfl hs).2.1⟩

/-- C4: after any sequence of `recordDownload` calls the ledger holds at
most 100 entries (exactly `min n 100` after `n` calls), the surviving
entries are the most recent ones (the oldest are evicted first), after more
than 100 calls `totalDownloads` is exactly 100, and `recentDownloads` has
at most 10 entries sorted newest-first. -/
theorem claim_C4_ledger (entries : List DownloadRecord) :
    (recordAll entries).length ≤ 100
  ∧ (recordAll entries).length = min entries.length 100
  ∧ recordAll entries = entries.drop (entries.length - 100)
  ∧ (100 < entries.length →
      (getStatistics (recordAll entries)).totalDownloads = 100)
  ∧ (getStatistics (recordAll entries)).recentDownloads.length ≤ 10
  ∧ (getStatistics (recordAll entries)).recentDownloads.Sorted
      (fun a b => b.timestamp ≤ a.timestamp) := by
  have hlen := recordAll_length entries
  refine ⟨by omega, hlen, recordAll_eq entries, ?_, recent_length_le _, recent_sorted _⟩
  intro hgt
  have htot : (getStatistics (recordAll entries)).totalDownloads =
      (recordAll entries).length := rfl
  rw [htot, hlen]
  omega

/-- Closed instantiation of `claim_C4_ledger` at 101 recorded downloads:
`totalDownloads` saturates at 100. -/
theorem claim_C4_witness :
    100 < ledgerBurst.length ∧
    (getStatistics (recordAll ledgerBurst)).totalDownloads = 100 := by
  have hlen : ledgerBurst.length = 101 := by simp [ledgerBurst]
  exact ⟨by omega, (claim_C4_ledger ledgerBurst).2.2.2.1 (by omega)⟩

/-- C8: on the empty ledger, `getStatistics` returns zero downloads, zero
total size, and — thanks to the `total > 0` guard — an average size of
exactly 0 rather than a division by zero. -/
theorem claim_C8_empty_statistics :
    (getStatistics []).totalDownloads = 0 ∧ (getStatistics []).totalSize = 0 ∧
      (getStatistics []).averageSize = 0 :=
  ⟨rfl, rfl, rfl⟩

/-- C5: `processBulkInvoices` processes every item in order regardless of
earlier failures: `processed` counts the successful items, `failed` the
failed ones, `errors` holds exactly one entry per failed item prefixed by
that item's invoice number, overall `success` holds exactly when no item
failed, and an item with a `null` source element always fails. -/
theorem claim_C5_bulk {E : Type} (env : BrowserEnv E)
    (invoices : List (BulkInvoice E)) :
    (processBulkInvoices env invoices).processed =
      invoices.countP (fun inv => (bulkItemResult env inv).success)
  ∧ (processBulkInvoices env invoices).failed =
      invoices.countP (fun inv => !(bulkItemResult env inv).success)
  ∧ (processBulkInvoices env invoices).errors =
      (invoices.filter (fun inv => !(bulkItemResult env inv).success)).map
        (fun inv => inv.invoiceNumber ++ ": " ++
          jsOrElse (bulkItemResult env inv).error "Unknown error")
  ∧ ((processBulkInvoices env invoices).success = true ↔
      (processBulkInvoices env invoices).failed = 0)
  ∧ (∀ inv ∈ invoices, inv.element = none →
      (bulkItemResult env inv).success = false) := by
  have h := processBulk_foldl env invoices
    { success := true, processed := 0, failed := 0, errors := [] }
  have hp : processBulkInvoices env invoices =
      { success := decide
          (0 + invoices.countP (fun inv => !(bulkItemResult env inv).success) = 0)
        processed := 0 + invoices.countP (fun inv => (bulkItemResult env inv).success)
        failed := 0 + invoices.countP (fun inv => !(bulkItemResult env inv).success)
        errors := [] ++
          (invoices.filter (fun inv => !(bulkItemResult env inv).success)).map
            (fun inv => inv.invoiceNumber ++ ": " ++
              jsOrElse (bulkItemResult env inv).error "Unknown error") } := by
    unfold processBulkInvoices
    rw [h]
  refine ⟨by simp [hp], by simp [hp], by simp [hp], by simp [hp], ?_⟩
  intro inv _ he
  unfold bulkItemResult generateInvoicePDF
  rw [he]
  rfl

/-- Closed instantiation of `claim_C5_bulk` on the five-item batch whose
third item has a `null` source: that item fails while the surrounding ones
are processed, `errors` names the failing invoice number, and overall
success is withheld. -/
theorem claim_C5_witness :
    badInvoice ∈ bulkFive ∧
    (bulkItemResult okEnv badInvoice).success = false ∧
    (processBulkInvoices okEnv bulkFive).processed = 4 ∧
    (processBulkInvoices okEnv bulkFive).failed = 1 ∧
    (processBulkInvoices okEnv bulkFive).errors =
      ["INV-3: Ref element is null or undefined"] ∧
    (processBulkInvoices okEnv bulkFive).success = false := by
  have hmem : badInvoice ∈ bulkFive := by
    simp [bulkFive, badInvoice]
  refine ⟨hmem, (claim_C5_bulk okEnv bulkFive).2.2.2.2 _ hmem rfl, rfl, rfl, rfl, rfl⟩

/-- C9: in `generateTablePDF`, a cell whose value under a header is any
falsy JavaScript value (missing, `undefined`, `null`, the empty string,
the number 0, `NaN`, or `false`) renders as the empty string — so `0` and
`false` print as blank cells, not as `"0"` or `"false"`. -/
theorem claim_C9_falsy_cells (row : String → JSValue) (header : String)
    (h : truthy (row header) = false) : tableCellValue row header = "" := by
  unfold tableCellValue jsOr
  rw [h]
  rfl

/-- Closed instantiation of `claim_C9_falsy_cells`: the numeric value 0 is
falsy and its cell renders blank. -/
theorem claim_C9_witness :
    truthy (JSValue.number 0) = false ∧
    tableCellValue (fun _ => JSValue.number 0) "amount" = "" := by
  have ht : truthy (JSValue.number 0) = false := by simp [truthy]
  exact ⟨ht, claim_C9_falsy_cells (fun _ => JSValue.number 0) "amount" ht⟩

end PdfUtils
